import Mathlib

/-!
Verification of the test-scaffold generation engine of `vue-tdd-automation`.

The definitions below are a shallow embedding of the TypeScript sources
`src/lib/test-generator/index.ts` (file assembler, section builder, case
orchestrator, requirements validator, name normalizer),
`src/lib/test-generator/enhanced-scaffold.ts` (local scaffold generator),
`src/lib/test-generator/copilot-scaffold.ts` (assistant-oriented scaffold
generator), `src/lib/test-generator/ai-generator.ts` (remote generator) and
`src/lib/test-generator/validator.ts` (content validator).

Modelling conventions:
- JavaScript strings are Lean `String` (a list of characters); template
  literals become explicit concatenations.  Literal braces of the generated
  JavaScript text are written with the escapes `\x7b` and `\x7d`.
- The regex class `\s` is modelled by `isWsChar` (space, tab, line feed,
  carriage return, vertical tab, form feed); `String.prototype.trim`,
  `split('\n')` and `Array.prototype.join` are modelled by `jsTrim`,
  `splitLines` and `joinN`/`joinNN`.
- Optional JS values and JS truthiness of strings are modelled by
  `Option String` together with `jsTruthy` (both `undefined` and the empty
  string are falsy); plain string fields that the source defaults to `''`
  are modelled as `String` with default `""`.
- The network (the `callAI` HTTP layer of `ai-generator.ts`, including
  endpoint dispatch, the HTTP round trip and response parsing) is modelled
  by an oracle `net : String → String → Except String String` mapping a
  prompt and an api key to either a clean test body or a thrown error; the
  remote generator as seen by the orchestrator is an oracle
  `remote : AITestContext → Option String` (by the contract proved for the
  remote generator its result is always an `Option`, never an exception).
-/

/-- Whitespace test modelling the regex class `\s` (and `trim`) of the
source: space, tab, line feed, vertical tab, form feed, carriage return. -/
def isWsChar (c : Char) : Bool :=
  c.toNat == 32 || c.toNat == 9 || c.toNat == 10 || c.toNat == 13 ||
  c.toNat == 11 || c.toNat == 12

/-- Lower-case ASCII letter or ASCII digit: the characters kept by the
normalizer's strip step `replace(/[^a-z0-9\s]/g, '')` that are not
whitespace. -/
def isLowerDigit (c : Char) : Bool :=
  (97 ≤ c.toNat && c.toNat ≤ 122) || (48 ≤ c.toNat && c.toNat ≤ 57)

/-- Characters kept by the strip step of `normalizeTestName`
(`[a-z0-9\s]`). -/
def keepChar (c : Char) : Bool :=
  isLowerDigit c || isWsChar c

/-- Characters that can occur in a fully normalized name: lower-case ASCII
alphanumerics and the single space. -/
def goodChar (c : Char) : Bool :=
  isLowerDigit c || c == ' '

/-- Does the list start with a whitespace character? -/
def headWs : List Char → Bool
  | [] => false
  | c :: _ => isWsChar c

/-- Is the last character a whitespace character? -/
def lastWs (l : List Char) : Bool :=
  match l.getLast? with
  | some c => isWsChar c
  | none => false

/-- Replace each maximal run of whitespace by a single space, as the step
`replace(/\s+/g, ' ')` of the source does.  The flag records whether the
previously emitted character came from a whitespace run. -/
def collapseAux : Bool → List Char → List Char
  | _, [] => []
  | prevWs, c :: cs =>
    if isWsChar c then
      if prevWs then collapseAux true cs
      else ' ' :: collapseAux true cs
    else c :: collapseAux false cs

/-- Whitespace-run collapsing, `replace(/\s+/g, ' ')`. -/
def collapseWs (l : List Char) : List Char :=
  collapseAux false l

/-- Remove trailing whitespace. -/
def trimEnd : List Char → List Char
  | [] => []
  | c :: cs =>
    if (trimEnd cs).isEmpty && isWsChar c then []
    else c :: trimEnd cs

/-- Character-list model of `String.prototype.trim`. -/
def jsTrimList (l : List Char) : List Char :=
  trimEnd (l.dropWhile isWsChar)

/-- Model of `String.prototype.trim`. -/
def jsTrim (s : String) : String :=
  String.mk (jsTrimList s.data)

/-- Character-list form of `normalizeTestName` from
`src/lib/test-generator/index.ts`: lower-case, strip everything outside
`[a-z0-9\s]`, collapse whitespace runs to one space, trim the ends. -/
def normChars (l : List Char) : List Char :=
  jsTrimList (collapseWs ((l.map Char.toLower).filter keepChar))

/-- Embedding of `normalizeTestName` (index.ts lines 275-281). -/
def normalizeTestName (s : String) : String :=
  String.mk (normChars s.data)

/-- Does `needle` occur as a prefix of `hay`? -/
def hasPre : List Char → List Char → Bool
  | [], _ => true
  | _ :: _, [] => false
  | a :: as', b :: bs' => a == b && hasPre as' bs'

/-- Does `needle` occur as a contiguous sublist of `hay`?  This models
`String.prototype.includes`. -/
def subOcc (needle : List Char) : List Char → Bool
  | [] => hasPre needle []
  | c :: cs => hasPre needle (c :: cs) || subOcc needle cs

/-- Model of `hay.includes(needle)`. -/
def strContains (hay needle : String) : Bool :=
  subOcc needle.data hay.data

/-- Model of `s.startsWith(p)` (used only in statements about generated
text). -/
def strStartsWith (s p : String) : Bool :=
  hasPre p.data s.data

/-- Model of `Array.prototype.join('\n')`. -/
def joinN : List String → String
  | [] => ""
  | [s] => s
  | s :: rest => s ++ "\n" ++ joinN rest

/-- Model of `Array.prototype.join('\n\n')`. -/
def joinNN : List String → String
  | [] => ""
  | [s] => s
  | s :: rest => s ++ "\n\n" ++ joinNN rest

/-- Model of `String.prototype.split('\n')`. -/
def splitLines (s : String) : List String :=
  s.splitOn "\n"

/-- JS truthiness of an optional string: `undefined` and `''` are falsy. -/
def jsTruthy : Option String → Bool
  | none => false
  | some s => !(s == "")

/-- JS `a || b` on optional strings (first truthy value wins). -/
def jsOr (a b : Option String) : Option String :=
  if jsTruthy a then a else b

/-- Embedding of `TestRequirements` from `src/lib/test-generator/types.ts`.
Optional fields carry the defaults that `generateTestContent` destructures
them with (`''` for strings, `[]` for lists). -/
structure TestRequirements where
  userStory : String := ""
  acceptanceCriteria : List String := []
  happyPath : List String := []
  edgeCases : List String := []
  errorCases : List String := []
  props : String := ""
  events : String := ""
deriving DecidableEq

/-- Embedding of `TestCaseType` from types.ts: the four section
categories. -/
inductive TestCaseType where
  | acceptance
  | happy
  | edge
  | error
deriving DecidableEq

/-- Embedding of `TestScenario['type']` from types.ts: the scaffold
categories (the four section categories plus `accessibility`). -/
inductive ScaffoldType where
  | acceptance
  | happy
  | edge
  | error
  | accessibility
deriving DecidableEq

/-- The cast `type as 'acceptance' | 'happy' | 'edge' | 'error' |
'accessibility'` used by `generateTestCase`. -/
def TestCaseType.toScaffold : TestCaseType → ScaffoldType
  | .acceptance => .acceptance
  | .happy => .happy
  | .edge => .edge
  | .error => .error

/-- Embedding of `ValidationResult` from types.ts. -/
structure ValidationResult where
  valid : Bool
  errors : List String
  warnings : List String
deriving DecidableEq

/-- Embedding of `TestGenerationOptions` from types.ts.  `issueNumber` is
`string | number` in the source; both render into the header comment via
string interpolation, so it is modelled as an optional string. -/
structure TestGenerationOptions where
  issueNumber : Option String := none
  issueTitle : Option String := none
  aiGenerate : Bool := false
deriving DecidableEq

/-- Embedding of `TestSectionContext` from types.ts. -/
structure TestSectionContext where
  props : String := ""
  events : String := ""
  userStory : String := ""
  acceptanceCriteria : List String := []
  aiGenerate : Bool := false
deriving DecidableEq

/-- Embedding of `AITestContext` from `ai-generator.ts`. -/
structure AITestContext where
  componentName : String
  scenario : String
  type : ScaffoldType
  props : String := ""
  events : String := ""
  userStory : String := ""
  acceptanceCriteria : List String := []
deriving DecidableEq

/-- Embedding of `EnhancedScaffoldContext` from `enhanced-scaffold.ts`. -/
structure EnhancedScaffoldContext where
  componentName : String
  scenario : String
  type : ScaffoldType
  description : String
  props : String := ""
  events : String := ""
deriving DecidableEq

/-- Embedding of `CopilotScaffoldContext` from `copilot-scaffold.ts`. -/
structure CopilotScaffoldContext where
  componentName : String
  scenario : String
  type : ScaffoldType
  description : String
  props : String := ""
  events : String := ""
  userStory : String := ""
  acceptanceCriteria : List String := []
deriving DecidableEq

/-- The fixed failing assertion that every locally generated scaffold body
ends with (the TDD "red phase" sentinel). -/
def redPhaseSentinel : String :=
  "expect(true).toBe(false)"

/-- The `typeLabel` record of `enhanced-scaffold.ts` (also used by
`copilot-scaffold.ts` and `ai-generator.ts`). -/
def scaffoldTypeLabel : ScaffoldType → String
  | .acceptance => "Acceptance Criteria"
  | .happy => "Happy Path"
  | .edge => "Edge Case"
  | .error => "Error Handling"
  | .accessibility => "Accessibility"

/-- Embedding of `generateStandardScaffold` (enhanced-scaffold.ts).  The
source's `description` and `_type` parameters are unused by its body and
are omitted here. -/
def generateStandardScaffold (componentName scenario propsComment eventsComment : String) : String :=
  "\n    // Arrange\n    const \x7b user \x7d = render(" ++ componentName ++
  ", \x7b\n      props: \x7b" ++ propsComment ++
  "\n      \x7d\n    \x7d);" ++ eventsComment ++
  "\n\n    // Act\n    // TODO: Implement user interactions based on scenario:\n    // " ++
  scenario ++
  "\n    // Examples:\n    //   await user.click(screen.getByRole('button', \x7b name: /submit/i \x7d));\n    //   await user.type(screen.getByLabelText('Email'), 'test@example.com');\n    //   await user.selectOptions(screen.getByLabelText('Country'), 'US');\n\n    // Assert\n    // TODO: Add assertions to verify: " ++
  scenario ++
  "\n    // Examples:\n    //   expect(screen.getByText('Success!')).toBeInTheDocument();\n    //   expect(screen.queryByText('Error')).not.toBeInTheDocument();\n    //   expect(screen.getByRole('alert')).toHaveTextContent('Saved');\n\n    " ++
  redPhaseSentinel ++ "; // This should fail (TDD - Red phase)"

/-- Embedding of `generateErrorScaffold` (enhanced-scaffold.ts); its unused
`description` parameter is omitted. -/
def generateErrorScaffold (componentName scenario propsComment eventsComment : String) : String :=
  "\n    // Arrange\n    const \x7b user \x7d = render(" ++ componentName ++
  ", \x7b\n      props: \x7b" ++ propsComment ++
  "\n      \x7d\n    \x7d);" ++ eventsComment ++
  "\n\n    // Act - Trigger error condition\n    // TODO: Trigger the error scenario:\n    // " ++
  scenario ++
  "\n    // Examples:\n    //   await user.type(screen.getByLabelText('Email'), 'invalid-email');\n    //   await user.click(screen.getByRole('button', \x7b name: /submit/i \x7d));\n    //\n    // For async errors, you may need:\n    //   await waitFor(() => \x7b\n    //     expect(screen.getByRole('alert')).toBeInTheDocument();\n    //   \x7d);\n\n    // Assert - Verify error handling\n    // TODO: Verify error is handled correctly:\n    // Examples:\n    //   expect(screen.getByRole('alert')).toHaveTextContent('Invalid email');\n    //   expect(screen.getByText(/error/i)).toBeInTheDocument();\n    //   expect(mockOnError).toHaveBeenCalledWith(expect.any(Error));\n\n    " ++
  redPhaseSentinel ++ "; // This should fail (TDD - Red phase)"

/-- Embedding of `generateAccessibilityScaffold` (enhanced-scaffold.ts):
keyboard variant. -/
def accessibilityKeyboardBody (componentName scenario : String) : String :=
  "\n    // Arrange\n    const \x7b user \x7d = render(" ++ componentName ++
  ");\n\n    // Act - Test keyboard navigation\n    // TODO: Test keyboard interactions:\n    // " ++
  scenario ++
  "\n    // Examples:\n    //   await user.tab();\n    //   expect(screen.getByRole('button')).toHaveFocus();\n    //\n    //   await user.keyboard('\x7bEnter\x7d');\n    //   expect(screen.getByText('Action completed')).toBeInTheDocument();\n    //\n    //   await user.keyboard('\x7bEscape\x7d');\n    //   expect(screen.queryByRole('dialog')).not.toBeInTheDocument();\n\n    // Assert - Verify keyboard accessibility\n    " ++
  redPhaseSentinel ++ "; // This should fail (TDD - Red phase)"

/-- Embedding of `generateAccessibilityScaffold` (enhanced-scaffold.ts):
screen-reader variant. -/
def accessibilityScreenReaderBody (componentName scenario : String) : String :=
  "\n    // Arrange\n    render(" ++ componentName ++
  ");\n\n    // Assert - Check accessibility attributes\n    // TODO: Verify screen reader accessibility:\n    // " ++
  scenario ++
  "\n    // Examples:\n    //   const button = screen.getByRole('button', \x7b name: /submit/i \x7d);\n    //   expect(button).toHaveAccessibleName('Submit form');\n    //   expect(button).toHaveAccessibleDescription('Click to submit the form');\n    //\n    //   const heading = screen.getByRole('heading', \x7b level: 1 \x7d);\n    //   expect(heading).toHaveTextContent('Page Title');\n    //\n    //   const input = screen.getByLabelText('Email address');\n    //   expect(input).toBeRequired();\n    //   expect(input).toHaveAttribute('aria-invalid', 'false');\n\n    " ++
  redPhaseSentinel ++ "; // This should fail (TDD - Red phase)"

/-- Embedding of `generateAccessibilityScaffold` (enhanced-scaffold.ts):
generic variant. -/
def accessibilityGenericBody (componentName scenario : String) : String :=
  "\n    // Arrange\n    render(" ++ componentName ++
  ");\n\n    // Assert - Check accessibility\n    // TODO: Verify accessibility requirement:\n    // " ++
  scenario ++
  "\n    // Examples:\n    //   // Semantic HTML\n    //   expect(screen.getByRole('button')).toBeInTheDocument();\n    //   expect(screen.getByRole('heading', \x7b level: 2 \x7d)).toBeInTheDocument();\n    //\n    //   // ARIA attributes\n    //   expect(screen.getByRole('navigation')).toHaveAttribute('aria-label', 'Main');\n    //\n    //   // Color contrast and focus indicators (manual testing)\n    //   // - Verify focus indicator is visible\n    //   // - Check color contrast meets WCAG AA standards\n\n    " ++
  redPhaseSentinel ++ "; // This should fail (TDD - Red phase)"

/-- Embedding of `generateAccessibilityScaffold` (enhanced-scaffold.ts):
substring dispatch between the keyboard, screen-reader and generic
variants. -/
def generateAccessibilityScaffold (componentName scenario description : String) : String :=
  if strContains description "keyboard" || strContains scenario "keyboard" then
    accessibilityKeyboardBody componentName scenario
  else if strContains description "screen reader" || strContains scenario "screen reader" ||
      strContains scenario "ARIA" then
    accessibilityScreenReaderBody componentName scenario
  else
    accessibilityGenericBody componentName scenario

/-- Embedding of `generateEnhancedScaffold` (enhanced-scaffold.ts): wraps a
category-specific body in the named `it('should …')` declaration. -/
def generateEnhancedScaffold (context : EnhancedScaffoldContext) : String :=
  let propsComment :=
    if context.props == "" then "\n      // TODO: Add required props if needed"
    else "\n      // Required props: " ++ context.props
  let eventsComment :=
    if context.events == "" then ""
    else "\n    // Available events: " ++ context.events
  let testBody :=
    match context.type with
    | .accessibility =>
      generateAccessibilityScaffold context.componentName context.scenario context.description
    | .error =>
      generateErrorScaffold context.componentName context.scenario propsComment eventsComment
    | _ =>
      generateStandardScaffold context.componentName context.scenario propsComment eventsComment
  "    it('should " ++ context.description ++ "', async () => \x7b\n    // " ++
  scaffoldTypeLabel context.type ++ ": " ++ context.scenario ++ "\n" ++
  testBody ++ "\n  \x7d);"

/-- Contextual comment header built at the top of `generateCopilotScaffold`
(copilot-scaffold.ts): type label and scenario, then the user story and the
acceptance criteria when present. -/
def copilotContextHeader (context : CopilotScaffoldContext) : String :=
  let base := "    // " ++ scaffoldTypeLabel context.type ++ ": " ++ context.scenario ++ "\n"
  let withStory :=
    if context.userStory == "" then base
    else base ++ "    // User Story: " ++ context.userStory ++ "\n"
  if context.acceptanceCriteria.isEmpty then withStory
  else
    withStory ++ "    // Acceptance Criteria:\n" ++
      String.join (context.acceptanceCriteria.map (fun c => "    //   - " ++ c ++ "\n"))

/-- Embedding of `generateCopilotStandardScaffold` (copilot-scaffold.ts);
the unused `_type` parameter is omitted. -/
def generateCopilotStandardScaffold (componentName scenario description props events contextHeader : String) : String :=
  let propsInfo := if props == "" then "" else "\n    // Component props: " ++ props
  let eventsInfo := if events == "" then "" else "\n    // Component events: " ++ events
  contextHeader ++ propsInfo ++ eventsInfo ++
  "\n    //\n    // COPILOT INSTRUCTIONS:\n    // 1. Render the " ++ componentName ++
  " component with appropriate props\n    // 2. Simulate user interactions that match the scenario: \"" ++
  scenario ++
  "\"\n    // 3. Assert that the expected outcome is achieved\n    //\n    // Testing Library Best Practices:\n    // - Use getByRole() for semantic queries (preferred)\n    // - Use getByLabelText() for form inputs\n    // - Use getByText() for text content\n    // - Use user.click(), user.type(), user.keyboard() for interactions\n    // - Use waitFor() for async state changes\n    //\n    // TDD Pattern: This test should FAIL initially (Red phase)\n    // The component implementation will make it pass (Green phase)\n\n    // STEP 1: Arrange - Set up the test environment\n    // Render the component with the required props\n    // Extract the user interaction helper from render\n    const \x7b user \x7d = render(" ++
  componentName ++
  ", \x7b\n      props: \x7b\n        // TODO: Add props based on: " ++
  (if props == "" then "component requirements" else props) ++
  "\n        // Example for a button: label: 'Click me', disabled: false\n        // Example for a form: initialValue: '', onSubmit: vi.fn()\n      \x7d\n    \x7d);\n\n    // STEP 2: Act - Simulate user interactions\n    // Perform the actions described in the scenario: \"" ++
  scenario ++
  "\"\n    // Common patterns:\n    //   - Click a button: await user.click(screen.getByRole('button', \x7b name: /text/i \x7d))\n    //   - Type in input: await user.type(screen.getByLabelText('Label'), 'value')\n    //   - Select option: await user.selectOptions(screen.getByLabelText('Label'), 'value')\n    //   - Check checkbox: await user.click(screen.getByRole('checkbox', \x7b name: /text/i \x7d))\n    //   - Tab navigation: await user.tab()\n\n    // TODO: Implement user interactions here\n\n    // STEP 3: Assert - Verify the expected outcome\n    // Check that the scenario requirement is met: \"" ++
  scenario ++
  "\"\n    // Common assertions:\n    //   - Element visible: expect(screen.getByText('text')).toBeInTheDocument()\n    //   - Element not visible: expect(screen.queryByText('text')).not.toBeInTheDocument()\n    //   - Element has text: expect(screen.getByRole('alert')).toHaveTextContent('message')\n    //   - Function called: expect(mockFn).toHaveBeenCalledWith(expectedArgs)\n    //   - Element has class: expect(element).toHaveClass('className')\n    //   - Element disabled: expect(screen.getByRole('button')).toBeDisabled()\n\n    // TODO: Add assertions to verify: " ++
  description ++
  "\n\n    // TDD Red Phase: This should fail until component is implemented\n    " ++
  redPhaseSentinel ++ "; // Remove this line after implementing the test"

/-- Embedding of `generateCopilotErrorScaffold` (copilot-scaffold.ts). -/
def generateCopilotErrorScaffold (componentName scenario description props events contextHeader : String) : String :=
  let propsInfo := if props == "" then "" else "\n    // Component props: " ++ props
  let eventsInfo := if events == "" then "" else "\n    // Component events: " ++ events
  contextHeader ++ propsInfo ++ eventsInfo ++
  "\n    //\n    // COPILOT INSTRUCTIONS:\n    // This is an ERROR HANDLING test - verify the component handles errors gracefully\n    // 1. Set up conditions that trigger the error: \"" ++
  scenario ++
  "\"\n    // 2. Verify the component displays appropriate error messages\n    // 3. Ensure the component remains functional after the error\n    //\n    // Error Testing Patterns:\n    // - Invalid form input validation\n    // - Network request failures (mock rejected promises)\n    // - Missing required props\n    // - Boundary conditions (empty arrays, null values, etc.)\n    //\n    // TDD Pattern: This test should FAIL initially (Red phase)\n\n    // STEP 1: Arrange - Set up error conditions\n    // Mock functions or set up props that will trigger the error\n    const mockErrorHandler = vi.fn();\n    const \x7b user \x7d = render(" ++
  componentName ++
  ", \x7b\n      props: \x7b\n        // TODO: Add props that may trigger errors: " ++
  (if props == "" then "component requirements" else props) ++
  "\n        // Example: onError: mockErrorHandler\n      \x7d\n    \x7d);\n\n    // STEP 2: Act - Trigger the error condition\n    // Perform actions that cause the error: \"" ++
  scenario ++
  "\"\n    // Common error triggers:\n    //   - Submit invalid form data\n    //   - Trigger failed API call (if mocked)\n    //   - Provide out-of-range values\n    //   - Remove required data\n\n    // TODO: Trigger error scenario: " ++
  scenario ++
  "\n\n    // For async errors, use waitFor:\n    // await waitFor(() => \x7b\n    //   expect(screen.getByRole('alert')).toBeInTheDocument();\n    // \x7d);\n\n    // STEP 3: Assert - Verify error handling\n    // Check that errors are handled gracefully: \"" ++
  description ++
  "\"\n    // Error handling assertions:\n    //   - Error message displayed: expect(screen.getByRole('alert')).toHaveTextContent('Error message')\n    //   - Error callback invoked: expect(mockErrorHandler).toHaveBeenCalledWith(expect.objectContaining(\x7b message: 'error' \x7d))\n    //   - Component shows fallback UI: expect(screen.getByText('Something went wrong')).toBeInTheDocument()\n    //   - Form validation error: expect(screen.getByText(/invalid/i)).toBeInTheDocument()\n    //   - Component still interactive: expect(screen.getByRole('button')).not.toBeDisabled()\n\n    // TODO: Verify error handling: " ++
  description ++
  "\n\n    // TDD Red Phase: This should fail until error handling is implemented\n    " ++
  redPhaseSentinel ++ "; // Remove this line after implementing the test"

/-- Embedding of `generateCopilotAccessibilityScaffold`
(copilot-scaffold.ts): keyboard variant. -/
def copilotAccessibilityKeyboardBody (componentName scenario description contextHeader : String) : String :=
  contextHeader ++
  "\n    //\n    // COPILOT INSTRUCTIONS:\n    // This is a KEYBOARD ACCESSIBILITY test\n    // Verify that: \"" ++
  scenario ++
  "\"\n    //\n    // Keyboard Testing Patterns:\n    // - Tab navigation: user.tab() moves focus to next interactive element\n    // - Enter/Space activation: user.keyboard('\x7bEnter\x7d') or user.keyboard(' ')\n    // - Escape key: user.keyboard('\x7bEscape\x7d') closes dialogs/menus\n    // - Arrow keys: user.keyboard('\x7bArrowDown\x7d') for dropdowns/lists\n    // - Focus management: Check focus moves logically through the component\n    //\n    // WCAG 2.1 AA Requirement: All interactive elements must be keyboard accessible\n    //\n    // TDD Pattern: This test should FAIL initially (Red phase)\n\n    // STEP 1: Arrange - Render the component\n    const \x7b user \x7d = render(" ++
  componentName ++
  ");\n\n    // STEP 2: Act - Test keyboard navigation\n    // Navigate through the component using keyboard: \"" ++
  scenario ++
  "\"\n    // Example keyboard interactions:\n    //   await user.tab(); // Move to next element\n    //   expect(screen.getByRole('button')).toHaveFocus();\n    //\n    //   await user.keyboard('\x7bEnter\x7d'); // Activate element\n    //   expect(screen.getByText('Action completed')).toBeInTheDocument();\n    //\n    //   await user.keyboard('\x7bEscape\x7d'); // Close modal/menu\n    //   expect(screen.queryByRole('dialog')).not.toBeInTheDocument();\n    //\n    //   await user.keyboard('\x7bArrowDown\x7d'); // Navigate dropdown\n    //   expect(screen.getByRole('option', \x7b selected: true \x7d)).toHaveTextContent('Option 2');\n\n    // TODO: Implement keyboard navigation test: " ++
  scenario ++
  "\n\n    // STEP 3: Assert - Verify keyboard accessibility\n    // Confirm all interactive elements are accessible via keyboard\n    // Common assertions:\n    //   - Element receives focus: expect(element).toHaveFocus()\n    //   - Focus indicator visible: Check computed styles (manual/visual test)\n    //   - Tab order is logical: Test sequential tab navigation\n    //   - Enter/Space activates buttons: Verify action occurs\n\n    // TODO: Verify keyboard accessibility: " ++
  description ++
  "\n\n    // TDD Red Phase: This should fail until keyboard support is implemented\n    " ++
  redPhaseSentinel ++ "; // Remove this line after implementing the test"

/-- Embedding of `generateCopilotAccessibilityScaffold`
(copilot-scaffold.ts): screen-reader variant. -/
def copilotAccessibilityScreenReaderBody (componentName scenario description contextHeader : String) : String :=
  contextHeader ++
  "\n    //\n    // COPILOT INSTRUCTIONS:\n    // This is a SCREEN READER ACCESSIBILITY test\n    // Verify that: \"" ++
  scenario ++
  "\"\n    //\n    // Screen Reader Testing Patterns:\n    // - Semantic HTML: Use proper heading hierarchy (h1, h2, h3)\n    // - ARIA labels: aria-label, aria-labelledby, aria-describedby\n    // - ARIA roles: role=\"button\", role=\"navigation\", etc.\n    // - Form labels: Every input must have an associated label\n    // - Alt text: Images must have meaningful alt attributes\n    // - Live regions: aria-live for dynamic content updates\n    //\n    // WCAG 2.1 AA Requirements:\n    // - All interactive elements must have accessible names\n    // - Form inputs must have labels\n    // - Images must have alt text\n    // - Dynamic content changes must be announced\n    //\n    // TDD Pattern: This test should FAIL initially (Red phase)\n\n    // STEP 1: Arrange - Render the component\n    render(" ++
  componentName ++
  ");\n\n    // STEP 2 & 3: Assert - Check accessibility attributes\n    // Verify screen reader accessibility: \"" ++
  scenario ++
  "\"\n    //\n    // Testing Library provides accessible queries that mirror screen reader behavior:\n    //\n    // 1. Accessible names:\n    //   const button = screen.getByRole('button', \x7b name: /submit/i \x7d);\n    //   expect(button).toHaveAccessibleName('Submit form');\n    //   expect(button).toHaveAccessibleDescription('Click to submit the form');\n    //\n    // 2. Semantic HTML:\n    //   const heading = screen.getByRole('heading', \x7b level: 1 \x7d);\n    //   expect(heading).toHaveTextContent('Page Title');\n    //\n    // 3. Form labels:\n    //   const input = screen.getByLabelText('Email address');\n    //   expect(input).toBeRequired();\n    //   expect(input).toHaveAttribute('aria-invalid', 'false');\n    //\n    // 4. ARIA attributes:\n    //   const nav = screen.getByRole('navigation');\n    //   expect(nav).toHaveAttribute('aria-label', 'Main navigation');\n    //\n    // 5. Live regions:\n    //   const alert = screen.getByRole('alert');\n    //   expect(alert).toHaveTextContent('Form submitted successfully');\n    //   expect(alert).toHaveAttribute('aria-live', 'polite');\n    //\n    // 6. Image alt text:\n    //   const image = screen.getByRole('img', \x7b name: /profile photo/i \x7d);\n    //   expect(image).toHaveAttribute('alt', 'Profile photo of John Doe');\n\n    // TODO: Verify screen reader accessibility: " ++
  description ++
  "\n\n    // TDD Red Phase: This should fail until accessibility attributes are added\n    " ++
  redPhaseSentinel ++ "; // Remove this line after implementing the test"

/-- Embedding of `generateCopilotAccessibilityScaffold`
(copilot-scaffold.ts): generic variant. -/
def copilotAccessibilityGenericBody (componentName scenario description contextHeader : String) : String :=
  contextHeader ++
  "\n    //\n    // COPILOT INSTRUCTIONS:\n    // This is a general ACCESSIBILITY test\n    // Verify that: \"" ++
  scenario ++
  "\"\n    //\n    // Accessibility Testing Checklist:\n    // ✓ Semantic HTML elements (button, nav, main, header, etc.)\n    // ✓ Proper heading hierarchy (h1 -> h2 -> h3)\n    // ✓ Form labels and ARIA attributes\n    // ✓ Color contrast (manual testing)\n    // ✓ Focus indicators (manual testing)\n    // ✓ Keyboard navigation\n    // ✓ Screen reader announcements\n    //\n    // WCAG 2.1 AA Standards:\n    // - Perceivable: Information must be presentable to all users\n    // - Operable: UI components must be operable by all users\n    // - Understandable: Information must be understandable\n    // - Robust: Content must work with assistive technologies\n    //\n    // TDD Pattern: This test should FAIL initially (Red phase)\n\n    // STEP 1: Arrange - Render the component\n    render(" ++
  componentName ++
  ");\n\n    // STEP 2 & 3: Assert - Check accessibility requirement\n    // Verify accessibility: \"" ++
  scenario ++
  "\"\n    //\n    // Common accessibility checks:\n    //\n    // 1. Semantic HTML:\n    //   expect(screen.getByRole('button')).toBeInTheDocument();\n    //   expect(screen.getByRole('heading', \x7b level: 2 \x7d)).toBeInTheDocument();\n    //   expect(screen.getByRole('navigation')).toBeInTheDocument();\n    //\n    // 2. ARIA attributes:\n    //   const region = screen.getByRole('region');\n    //   expect(region).toHaveAttribute('aria-label', 'Main content');\n    //\n    // 3. Form accessibility:\n    //   const input = screen.getByLabelText('Email');\n    //   expect(input).toBeRequired();\n    //   expect(input).toHaveAccessibleName('Email');\n    //\n    // 4. Link accessibility:\n    //   const link = screen.getByRole('link', \x7b name: /learn more/i \x7d);\n    //   expect(link).toHaveAttribute('href', '/about');\n    //\n    // 5. Interactive element states:\n    //   const button = screen.getByRole('button');\n    //   expect(button).not.toBeDisabled();\n    //   expect(button).toHaveAttribute('aria-pressed', 'false');\n    //\n    // Manual testing required for:\n    // - Color contrast (use browser DevTools or axe extension)\n    // - Focus indicator visibility (tab through and visually verify)\n    // - Screen reader announcements (test with NVDA/JAWS/VoiceOver)\n\n    // TODO: Verify accessibility requirement: " ++
  description ++
  "\n\n    // TDD Red Phase: This should fail until accessibility is implemented\n    " ++
  redPhaseSentinel ++ "; // Remove this line after implementing the test"

/-- Embedding of `generateCopilotAccessibilityScaffold`
(copilot-scaffold.ts): substring dispatch between the three accessibility
variants. -/
def generateCopilotAccessibilityScaffold (componentName scenario description contextHeader : String) : String :=
  if strContains description "keyboard" || strContains scenario "keyboard" then
    copilotAccessibilityKeyboardBody componentName scenario description contextHeader
  else if strContains description "screen reader" || strContains scenario "screen reader" ||
      strContains scenario "ARIA" then
    copilotAccessibilityScreenReaderBody componentName scenario description contextHeader
  else
    copilotAccessibilityGenericBody componentName scenario description contextHeader

/-- Embedding of `generateCopilotScaffold` (copilot-scaffold.ts): the
assistant-oriented scaffold generator.  Present in the repository but not
invoked by the case orchestrator (see the analysis of the fallback tier
below). -/
def generateCopilotScaffold (context : CopilotScaffoldContext) : String :=
  let contextHeader := copilotContextHeader context
  let testBody :=
    match context.type with
    | .accessibility =>
      generateCopilotAccessibilityScaffold context.componentName context.scenario
        context.description contextHeader
    | .error =>
      generateCopilotErrorScaffold context.componentName context.scenario
        context.description context.props context.events contextHeader
    | _ =>
      generateCopilotStandardScaffold context.componentName context.scenario
        context.description context.props context.events contextHeader
  "    it('should " ++ context.description ++ "', async () => \x7b\n" ++
  testBody ++ "\n  \x7d);"

/-- Embedding of `AITestGeneratorConfig` (ai-generator.ts).  The `model`,
`maxTokens` and `temperature` fields feed only the HTTP layer, which is
modelled by the `net` oracle, so only the credential field is carried. -/
structure AITestGeneratorConfig where
  apiKey : Option String := none
deriving DecidableEq

/-- The two environment variables consulted by the remote generator
(`process.env.OPENAI_API_KEY` and `process.env.GITHUB_TOKEN`). -/
structure AIEnv where
  openaiKey : Option String := none
  githubToken : Option String := none
deriving DecidableEq

/-- Credential resolution of `generateTestWithAI` and `validateAIConfig`:
`config.apiKey || process.env.OPENAI_API_KEY || process.env.GITHUB_TOKEN`. -/
def resolveApiKey (config : AITestGeneratorConfig) (env : AIEnv) : Option String :=
  jsOr (jsOr config.apiKey env.openaiKey) env.githubToken

/-- Embedding of `buildPrompt` (ai-generator.ts). -/
def buildPrompt (context : AITestContext) : String :=
  let base :=
    "Generate a Vue 3 component test using Vitest and Testing Library.\n\nComponent: " ++
    context.componentName ++ "\nTest Type: " ++ scaffoldTypeLabel context.type ++
    "\nScenario: " ++ context.scenario ++ "\n"
  let withStory :=
    if context.userStory == "" then base
    else base ++ "\nUser Story: " ++ context.userStory
  let withProps :=
    if context.props == "" then withStory
    else withStory ++ "\nProps: " ++ context.props
  let withEvents :=
    if context.events == "" then withProps
    else withProps ++ "\nEvents: " ++ context.events
  let withCriteria :=
    if context.acceptanceCriteria.isEmpty then withEvents
    else withEvents ++ "\nAcceptance Criteria:\n" ++
      joinN (context.acceptanceCriteria.map (fun c => "- " ++ c))
  withCriteria ++
  "\n\nRequirements:\n- Use Testing Library queries (prefer getByRole, getByLabelText, getByText)\n- Use user-event for interactions (from render() return value)\n- Include proper async/await handling\n- Write clear, descriptive assertions\n- Follow accessibility-first testing practices\n- Use Arrange/Act/Assert pattern with comments\n- Return ONLY the test implementation code (the it() block content)\n- Do NOT include the it() declaration itself, only the test body\n- Do NOT include surrounding describe() blocks\n- Start with // Arrange comment\n- Use proper TypeScript types\n\nExample format:\n// Arrange\nconst \x7b user \x7d = render(" ++
  context.componentName ++
  ", \x7b\n  props: \x7b /* props here */ \x7d\n\x7d);\n\n// Act\nawait user.click(screen.getByRole('button', \x7b name: /submit/i \x7d));\n\n// Assert\nexpect(screen.getByText('Success!')).toBeInTheDocument();\n\nGenerate the test implementation:"

/-- Embedding of `generateTestWithAI` (ai-generator.ts lines 26-45) against
the network oracle `net` (the `callAI` layer: endpoint dispatch, HTTP round
trip and response parsing; a thrown error is `Except.error`).  The result
pairs the returned value (`null` is `none`) with the number of network
calls attempted; the function is total, modelling that the source never
lets an exception escape (the whole call of `callAI` sits inside a
`try`/`catch` that returns `null`). -/
def generateTestWithAI (net : String → String → Except String String)
    (context : AITestContext) (config : AITestGeneratorConfig) (env : AIEnv) :
    Option String × Nat :=
  let apiKey := resolveApiKey config env
  if jsTruthy apiKey then
    match net (buildPrompt context) (apiKey.getD "") with
    | .ok testCode => (some testCode, 1)
    | .error _ => (none, 1)
  else
    (none, 0)

/-- The `typeLabel` record local to `generateTestCase` (index.ts lines
180-185); note it labels `error` as "Error Case", unlike the scaffold
generators' label map. -/
def caseTypeLabel : TestCaseType → String
  | .acceptance => "Acceptance Criteria"
  | .happy => "Happy Path"
  | .edge => "Edge Case"
  | .error => "Error Case"

/-- The indentation step `aiResult.split('\n').map(line => `      ` + line).join('\n')`
applied to a remote-generated body before wrapping it. -/
def indentSix (code : String) : String :=
  joinN ((splitLines code).map (fun line => "      " ++ line))

/-- Embedding of `generateTestCase` (index.ts lines 170-218), the case
orchestrator: derives the test description from the scenario, consults the
remote generator when `aiGenerate` is set, and otherwise falls back to the
local enhanced scaffold. -/
def generateTestCase (remote : AITestContext → Option String)
    (scenario componentName : String) (type : TestCaseType)
    (context : TestSectionContext) : String :=
  let testName := normalizeTestName scenario
  let verb := if type == .edge || type == .error then "handle" else ""
  let description := if verb == "" then testName else verb ++ " " ++ testName
  let aiResult :=
    if context.aiGenerate then
      remote { componentName := componentName, scenario := scenario,
               type := type.toScaffold, props := context.props,
               events := context.events, userStory := context.userStory,
               acceptanceCriteria := context.acceptanceCriteria }
    else none
  match aiResult with
  | some code =>
    "    it('should " ++ description ++ "', async () => \x7b\n      // " ++
    caseTypeLabel type ++ ": " ++ scenario ++ "\n" ++ indentSix code ++ "\n    \x7d);"
  | none =>
    generateEnhancedScaffold
      { componentName := componentName, scenario := scenario,
        type := type.toScaffold, description := description,
        props := context.props, events := context.events }

/-- Rendering of one section: the shared shape of `generateTestSection` and
`generateAccessibilitySection` (index.ts): a `describe` group wrapping the
test cases joined with blank lines. -/
def renderSection (s : String × List String) : String :=
  "  describe('" ++ s.1 ++ "', () => \x7b\n" ++ joinNN s.2 ++ "\n  \x7d);"

/-- The test cases of one scenario section (the `Promise.all(scenarios.map …)`
of `generateTestSection`). -/
def sectionScenarioCases (remote : AITestContext → Option String)
    (componentName : String) (type : TestCaseType)
    (context : TestSectionContext) (scenarios : List String) : List String :=
  scenarios.map (fun s => generateTestCase remote s componentName type context)

/-- Embedding of `generateTestSection` (index.ts lines 149-165). -/
def generateTestSection (remote : AITestContext → Option String)
    (sectionTitle : String) (scenarios : List String) (componentName : String)
    (type : TestCaseType) (context : TestSectionContext) : String :=
  renderSection (sectionTitle, sectionScenarioCases remote componentName type context scenarios)

/-- The two fixed accessibility scenarios of `generateAccessibilitySection`
(index.ts lines 227-230), as (description, scenario) pairs. -/
def accessibilityPairs : List (String × String) :=
  [("be accessible to screen readers",
    "Component should have proper ARIA labels and semantic HTML"),
   ("be keyboard navigable",
    "User should be able to navigate and interact using keyboard only")]

/-- One accessibility test case of `generateAccessibilitySection`: remote
attempt (without a type-label comment line) with enhanced-scaffold
fallback. -/
def accessibilityCase (remote : AITestContext → Option String)
    (componentName : String) (context : TestSectionContext)
    (p : String × String) : String :=
  let aiResult :=
    if context.aiGenerate then
      remote { componentName := componentName, scenario := p.2,
               type := .accessibility, props := context.props,
               events := context.events, userStory := context.userStory,
               acceptanceCriteria := context.acceptanceCriteria }
    else none
  match aiResult with
  | some code =>
    "    it('should " ++ p.1 ++ "', async () => \x7b\n" ++ indentSix code ++ "\n    \x7d);"
  | none =>
    generateEnhancedScaffold
      { componentName := componentName, scenario := p.2,
        type := .accessibility, description := p.1,
        props := context.props, events := context.events }

/-- The two test cases of the accessibility section. -/
def accessibilityCases (remote : AITestContext → Option String)
    (componentName : String) (context : TestSectionContext) : List String :=
  accessibilityPairs.map (accessibilityCase remote componentName context)

/-- Embedding of `generateAccessibilitySection` (index.ts lines 223-270). -/
def generateAccessibilitySection (remote : AITestContext → Option String)
    (componentName : String) (context : TestSectionContext) : String :=
  renderSection ("Accessibility", accessibilityCases remote componentName context)

/-- The `sections` array built by `generateTestContent` (index.ts lines
71-126), kept as (title, test cases) pairs: one section per non-empty
scenario list, in the fixed acceptance → happy → edge → error order,
followed unconditionally by the accessibility section. -/
def buildSections (remote : AITestContext → Option String)
    (componentName : String) (r : TestRequirements)
    (context : TestSectionContext) : List (String × List String) :=
  (if r.acceptanceCriteria.isEmpty then []
   else [("Acceptance Criteria",
          sectionScenarioCases remote componentName .acceptance context r.acceptanceCriteria)]) ++
  (if r.happyPath.isEmpty then []
   else [("Happy Path",
          sectionScenarioCases remote componentName .happy context r.happyPath)]) ++
  (if r.edgeCases.isEmpty then []
   else [("Edge Cases",
          sectionScenarioCases remote componentName .edge context r.edgeCases)]) ++
  (if r.errorCases.isEmpty then []
   else [("Error Handling",
          sectionScenarioCases remote componentName .error context r.errorCases)]) ++
  [("Accessibility", accessibilityCases remote componentName context)]

/-- The header comment of the generated file (index.ts lines 49-60). -/
def headerCommentOf (componentName : String) (options : TestGenerationOptions)
    (userStory : String) : String :=
  "/**\n * " ++ componentName ++ " Component Tests\n" ++
  (if jsTruthy options.issueNumber && jsTruthy options.issueTitle then
     " * GitHub Issue #" ++ (options.issueNumber.getD "") ++ ": " ++
     (options.issueTitle.getD "") ++ "\n *\n"
   else " * Auto-generated from TDD Feature CLI\n *\n") ++
  " * User Story: " ++ userStory ++
  "\n *\n * This test file follows TDD approach - all tests should fail initially (Red phase)\n */\n"

/-- The subject import line of the generated file, also the exact text the
content validator's import-path pattern requires. -/
def importLine (componentName : String) : String :=
  "import " ++ componentName ++ " from './" ++ componentName ++ ".vue'"

/-- The import block of the generated file (index.ts lines 63-68, after its
`.trim()`). -/
def importsBlock (componentName : String) : String :=
  "import \x7b describe, it, expect, beforeEach, vi, afterEach \x7d from 'vitest'\n" ++
  "import \x7b render, screen, waitFor \x7d from '@/test/helpers/testing-library'\n" ++
  "import \x7b mount \x7d from '@vue/test-utils'\n" ++
  importLine componentName

/-- The outer `describe` wrapper with the setup/teardown hooks (index.ts
lines 129-140, after its `.trim()`). -/
def testBodyOf (componentName : String) (sections : List String) : String :=
  "describe('" ++ componentName ++
  " Component', () => \x7b\n  beforeEach(() => \x7b\n    vi.clearAllMocks();\n  \x7d);\n\n  afterEach(() => \x7b\n    vi.restoreAllMocks();\n  \x7d);\n\n" ++
  joinNN sections ++ "\n\x7d);"

/-- Embedding of `generateTestContent` (index.ts lines 20-144), the file
assembler: header comment, import block, the per-category sections and the
mandatory accessibility section inside the outer wrapper.  The source's
console logging of the AI-configuration status has no effect on the result
and is not modelled. -/
def generateTestContent (remote : AITestContext → Option String)
    (componentName : String) (requirements : TestRequirements)
    (options : TestGenerationOptions) : String :=
  let context : TestSectionContext :=
    { props := requirements.props, events := requirements.events,
      userStory := requirements.userStory,
      acceptanceCriteria := requirements.acceptanceCriteria,
      aiGenerate := options.aiGenerate }
  headerCommentOf componentName options requirements.userStory ++ "\n\n" ++
  importsBlock componentName ++ "\n\n" ++
  testBodyOf componentName ((buildSections remote componentName requirements context).map renderSection) ++
  "\n"

/-- Upper-case ASCII letter (`[A-Z]`). -/
def isUpperAZ (c : Char) : Bool :=
  65 ≤ c.toNat && c.toNat ≤ 90

/-- ASCII letter or digit (`[a-zA-Z0-9]`). -/
def isAlphaNum09 (c : Char) : Bool :=
  isUpperAZ c || (97 ≤ c.toNat && c.toNat ≤ 122) || (48 ≤ c.toNat && c.toNat ≤ 57)

/-- Embedding of `isValidComponentName` (index.ts lines 286-288): the
PascalCase regex `^[A-Z][a-zA-Z0-9]*$`. -/
def isValidComponentName (componentName : String) : Bool :=
  match componentName.data with
  | [] => false
  | c :: cs => isUpperAZ c && cs.all isAlphaNum09

/-- Does the requirements model have at least one scenario in any of the
four lists (the `hasScenarios` test of `validateRequirements`)? -/
def hasAnyScenario (r : TestRequirements) : Bool :=
  !r.acceptanceCriteria.isEmpty || !r.happyPath.isEmpty ||
  !r.edgeCases.isEmpty || !r.errorCases.isEmpty

/-- Embedding of `validateRequirements` (index.ts lines 293-321).  The
source's initial `!requirements` null guard has no counterpart because the
embedded requirements value always exists; `!requirements.userStory ||
requirements.userStory.trim() === ''` collapses to the trim test since an
absent story is modelled as `""`. -/
def validateRequirements (r : TestRequirements) : ValidationResult :=
  let errors :=
    (if hasAnyScenario r then []
     else ["At least one test scenario is required (acceptance criteria, happy path, edge case, or error case)"]) ++
    (if jsTrim r.userStory == "" then ["User story is required"] else [])
  { valid := errors.isEmpty, errors := errors, warnings := [] }

/-- The `requiredImports` token list of `validateTestContent`
(validator.ts lines 25-31). -/
def requiredTokens (componentName : String) : List String :=
  ["describe", "it", "expect", "render", componentName]

/-- The error-producing checks of `validateTestContent` (validator.ts lines
11-97), in source order: non-empty content (check 1, which short-circuits),
the required tokens (check 2), at least one `describe(` (check 3), at least
one `it(` (check 4), and the subject import path (check 11).  Check 11
builds a regex from the regex-escaped component name; for any component
name free of regex metacharacters — in particular every name accepted by
`isValidComponentName` — that regex matches exactly the literal
`importLine` text, which is how it is modelled here.  Checks 5-10 produce
only warnings and never affect `valid`; of these only the red-phase check
(5) is needed by a verified property and is modelled separately as
`redPhaseCheckPasses`. -/
def validateTestContentErrors (testContent componentName : String) : List String :=
  if jsTrim testContent == "" then ["Test content is empty"]
  else
    ((requiredTokens componentName).filterMap fun t =>
      if strContains testContent t then none
      else some ("Missing required import or usage: " ++ t)) ++
    (if strContains testContent "describe(" then [] else ["No describe blocks found"]) ++
    (if strContains testContent "it(" then [] else ["No test cases (it blocks) found"]) ++
    (if strContains testContent (importLine componentName) then []
     else ["Component import path doesn't match expected pattern: ./" ++ componentName ++ ".vue"])

/-- The `valid` flag of `validateTestContent`: true exactly when the error
list is empty (warnings never affect it). -/
def validTestContent (testContent componentName : String) : Bool :=
  (validateTestContentErrors testContent componentName).isEmpty

/-- The red-phase check of `validateTestContent` (validator.ts lines
49-54): the check passes — no red-phase warning is pushed — iff the content
contains the failing-assertion sentinel or the literal text
`// Red phase`. -/
def redPhaseCheckPasses (testContent : String) : Bool :=
  strContains testContent redPhaseSentinel || strContains testContent "// Red phase"

/-- The five canonical section titles in their fixed order of appearance. -/
def canonicalSectionOrder : List String :=
  ["Acceptance Criteria", "Happy Path", "Edge Cases", "Error Handling", "Accessibility"]

/-- Which canonical sections a given requirements model enables: each
scenario section iff its list is non-empty, the accessibility section
always. -/
def sectionPresent (r : TestRequirements) (title : String) : Bool :=
  if title = "Acceptance Criteria" then !r.acceptanceCriteria.isEmpty
  else if title = "Happy Path" then !r.happyPath.isEmpty
  else if title = "Edge Cases" then !r.edgeCases.isEmpty
  else if title = "Error Handling" then !r.errorCases.isEmpty
  else if title = "Accessibility" then true
  else false

/-- No two adjacent whitespace characters (an invariant of
whitespace-collapsed text, used to prove the normalizer idempotent). -/
def noTwoWs : List Char → Bool
  | a :: b :: rest => (!(isWsChar a && isWsChar b)) && noTwoWs (b :: rest)
  | _ => true

theorem subOcc_nil_needle (l : List Char) : subOcc [] l = true := by
  cases l <;> simp [subOcc, hasPre]

theorem hasPre_append (n l t : List Char) (h : hasPre n l = true) :
    hasPre n (l ++ t) = true := by
  induction n generalizing l with
  | nil => simp [hasPre]
  | cons a as' ih =>
    cases l with
    | nil => simp [hasPre] at h
    | cons b bs' =>
      simp only [hasPre, Bool.and_eq_true] at h
      simp only [List.cons_append, hasPre, Bool.and_eq_true]
      exact ⟨h.1, ih bs' h.2⟩

theorem hasPre_self_append (n t : List Char) : hasPre n (n ++ t) = true := by
  induction n with
  | nil => simp [hasPre]
  | cons a as' ih => simp [hasPre, ih]

theorem subOcc_of_hasPre (n l : List Char) (h : hasPre n l = true) :
    subOcc n l = true := by
  cases l with
  | nil => simpa [subOcc] using h
  | cons c cs => simp [subOcc, h]

theorem subOcc_append_left (n a b : List Char) (h : subOcc n a = true) :
    subOcc n (a ++ b) = true := by
  induction a with
  | nil =>
    cases n with
    | nil => simpa using subOcc_nil_needle b
    | cons x xs => simp [subOcc, hasPre] at h
  | cons c cs ih =>
    simp only [subOcc, Bool.or_eq_true] at h
    rcases h with h | h
    · exact subOcc_of_hasPre n _ (by simpa using hasPre_append n (c :: cs) b h)
    · simp only [List.cons_append, subOcc, Bool.or_eq_true]
      exact Or.inr (ih h)

theorem subOcc_append_right (n a b : List Char) (h : subOcc n b = true) :
    subOcc n (a ++ b) = true := by
  induction a with
  | nil => simpa using h
  | cons c cs ih =>
    simp only [List.cons_append, subOcc, Bool.or_eq_true]
    exact Or.inr ih

theorem strContains_append_left (a b n : String) (h : strContains a n = true) :
    strContains (a ++ b) n = true := by
  unfold strContains at *
  rw [String.data_append]
  exact subOcc_append_left _ _ _ h

theorem strContains_append_right (a b n : String) (h : strContains b n = true) :
    strContains (a ++ b) n = true := by
  unfold strContains at *
  rw [String.data_append]
  exact subOcc_append_right _ _ _ h

theorem strContains_self_append (n t : String) : strContains (n ++ t) n = true := by
  unfold strContains
  rw [String.data_append]
  exact subOcc_of_hasPre _ _ (hasPre_self_append _ _)

theorem strContains_joinNN (l : List String) (s n : String) (hs : s ∈ l)
    (h : strContains s n = true) : strContains (joinNN l) n = true := by
  induction l with
  | nil => cases hs
  | cons x xs ih =>
    cases xs with
    | nil =>
      rcases List.mem_singleton.mp hs with rfl
      simpa [joinNN] using h
    | cons y ys =>
      rcases List.mem_cons.mp hs with rfl | hmem
      · show strContains (s ++ "\n\n" ++ joinNN (y :: ys)) n = true
        exact strContains_append_left _ _ _ (strContains_append_left _ _ _ h)
      · show strContains (x ++ "\n\n" ++ joinNN (y :: ys)) n = true
        exact strContains_append_right _ _ _ (ih hmem)

theorem strStartsWith_append_of (s t p : String) (h : strStartsWith s p = true) :
    strStartsWith (s ++ t) p = true := by
  unfold strStartsWith at *
  rw [String.data_append]
  exact hasPre_append _ _ _ h

theorem toLower_eq_self (c : Char) (h : c.toNat < 65 ∨ 90 < c.toNat) :
    c.toLower = c := by
  show (if c.toNat ≥ 65 ∧ c.toNat ≤ 90 then Char.ofNat (c.toNat + 32) else c) = c
  rw [if_neg (by omega)]

theorem good_toLower_fix (c : Char) (h : goodChar c = true) : c.toLower = c := by
  apply toLower_eq_self
  simp only [goodChar, isLowerDigit, Bool.or_eq_true, Bool.and_eq_true,
    decide_eq_true_eq, beq_iff_eq] at h
  rcases h with (⟨h1, h2⟩ | ⟨h1, h2⟩) | rfl
  · omega
  · omega
  · left; decide

theorem good_ws_eq_space (c : Char) (h1 : goodChar c = true)
    (h2 : isWsChar c = true) : c = ' ' := by
  simp only [goodChar, isLowerDigit, Bool.or_eq_true, Bool.and_eq_true,
    decide_eq_true_eq, beq_iff_eq] at h1
  rcases h1 with h | h
  · exfalso
    simp only [isWsChar, Bool.or_eq_true, beq_iff_eq] at h2
    omega
  · exact h

theorem good_keep (c : Char) (h : goodChar c = true) : keepChar c = true := by
  simp only [goodChar, Bool.or_eq_true, beq_iff_eq] at h
  rcases h with h | rfl
  · simp [keepChar, h]
  · simp [keepChar, isWsChar]

theorem mem_collapseAux (l : List Char) (b : Bool) (c : Char)
    (h : c ∈ collapseAux b l) : c = ' ' ∨ (c ∈ l ∧ isWsChar c = false) := by
  induction l generalizing b with
  | nil => simp [collapseAux] at h
  | cons d ds ih =>
    by_cases hws : isWsChar d
    · cases b with
      | true =>
        simp only [collapseAux, hws, if_true, if_pos] at h
        rcases ih true h with h' | ⟨hmem, hnws⟩
        · exact Or.inl h'
        · exact Or.inr ⟨List.mem_cons_of_mem d hmem, hnws⟩
      | false =>
        simp only [collapseAux, hws, if_true, if_false] at h
        rcases List.mem_cons.mp h with rfl | h'
        · exact Or.inl rfl
        · rcases ih true h' with h'' | ⟨hmem, hnws⟩
          · exact Or.inl h''
          · exact Or.inr ⟨List.mem_cons_of_mem d hmem, hnws⟩
    · simp only [collapseAux, hws, if_false] at h
      rcases List.mem_cons.mp h with rfl | h'
      · exact Or.inr ⟨List.mem_cons_self c ds, by simpa using hws⟩
      · rcases ih false h' with h'' | ⟨hmem, hnws⟩
        · exact Or.inl h''
        · exact Or.inr ⟨List.mem_cons_of_mem d hmem, hnws⟩

theorem headWs_collapseAux_true (l : List Char) :
    headWs (collapseAux true l) = false := by
  induction l with
  | nil => simp [collapseAux, headWs]
  | cons d ds ih =>
    by_cases hws : isWsChar d
    · simpa [collapseAux, hws] using ih
    · simpa [collapseAux, hws, headWs] using hws

theorem noTwoWs_cons_of (c : Char) (l : List Char)
    (h1 : headWs l = false ∨ isWsChar c = false) (h2 : noTwoWs l = true) :
    noTwoWs (c :: l) = true := by
  cases l with
  | nil => simp [noTwoWs]
  | cons x xs =>
    simp only [noTwoWs, Bool.and_eq_true, Bool.not_eq_true']
    refine ⟨?_, h2⟩
    rcases h1 with h | h
    · simp only [headWs] at h
      simp [h]
    · simp [h]

theorem noTwoWs_tail (c : Char) (l : List Char) (h : noTwoWs (c :: l) = true) :
    noTwoWs l = true := by
  cases l with
  | nil => simp [noTwoWs]
  | cons x xs =>
    simp only [noTwoWs, Bool.and_eq_true] at h
    exact h.2

theorem noTwoWs_collapseAux (l : List Char) (b : Bool) :
    noTwoWs (collapseAux b l) = true := by
  induction l generalizing b with
  | nil => simp [collapseAux, noTwoWs]
  | cons d ds ih =>
    by_cases hws : isWsChar d
    · cases b with
      | true => simpa [collapseAux, hws] using ih true
      | false =>
        simp only [collapseAux, hws, if_true, if_false]
        exact noTwoWs_cons_of _ _ (Or.inl (headWs_collapseAux_true ds)) (ih true)
    · simp only [collapseAux, hws, if_false]
      exact noTwoWs_cons_of _ _ (Or.inr (by simpa using hws)) (ih false)

theorem collapseAux_fix (r : List Char) (hgood : ∀ c ∈ r, goodChar c = true)
    (hnt : noTwoWs r = true) :
    ∀ b, (b = true → headWs r = false) → collapseAux b r = r := by
  induction r with
  | nil => intro b _; rfl
  | cons c cs ih =>
    intro b hb
    by_cases hws : isWsChar c
    · have hbf : b = false := by
        cases b with
        | false => rfl
        | true =>
          have := hb rfl
          simp only [headWs] at this
          exact absurd hws (by simp [this])
      subst hbf
      have hsp : c = ' ' := good_ws_eq_space c (hgood c (List.mem_cons_self c cs)) hws
      have htail : collapseAux true cs = cs := by
        apply ih (fun x hx => hgood x (List.mem_cons_of_mem c hx)) (noTwoWs_tail c cs hnt)
        intro _
        cases cs with
        | nil => simp [headWs]
        | cons d ds =>
          simp only [noTwoWs, Bool.and_eq_true, Bool.not_eq_true'] at hnt
          simp only [headWs]
          have := hnt.1
          simpa [hws] using this
      subst hsp
      simp [collapseAux, hws, htail]
    · have htail : collapseAux false cs = cs :=
        ih (fun x hx => hgood x (List.mem_cons_of_mem c hx)) (noTwoWs_tail c cs hnt)
          false (by simp)
      simp [collapseAux, hws, htail]

theorem trimEnd_cons (c : Char) (cs : List Char) :
    trimEnd (c :: cs) = [] ∨ trimEnd (c :: cs) = c :: trimEnd cs := by
  by_cases h : (trimEnd cs).isEmpty && isWsChar c
  · exact Or.inl (by simp [trimEnd, h])
  · exact Or.inr (by simp [trimEnd, h])

theorem mem_trimEnd (l : List Char) (c : Char) (h : c ∈ trimEnd l) : c ∈ l := by
  induction l with
  | nil => simpa [trimEnd] using h
  | cons d ds ih =>
    rcases trimEnd_cons d ds with heq | heq
    · rw [heq] at h
      cases h
    · rw [heq] at h
      rcases List.mem_cons.mp h with rfl | h'
      · exact List.mem_cons_self c ds
      · exact List.mem_cons_of_mem d (ih h')

theorem noTwoWs_trimEnd (l : List Char) (h : noTwoWs l = true) :
    noTwoWs (trimEnd l) = true := by
  induction l with
  | nil => simp [trimEnd, noTwoWs]
  | cons c cs ih =>
    rcases trimEnd_cons c cs with heq | heq
    · simp [heq, noTwoWs]
    · rw [heq]
      cases cs with
      | nil => simp [trimEnd, noTwoWs]
      | cons d ds =>
        have htl : noTwoWs (trimEnd (d :: ds)) = true := ih (noTwoWs_tail c _ h)
        rcases trimEnd_cons d ds with heq2 | heq2
        · simp [heq2, noTwoWs]
        · rw [heq2]
          rw [heq2] at htl
          simp only [noTwoWs, Bool.and_eq_true] at h ⊢
          exact ⟨h.1, htl⟩

theorem lastWs_trimEnd (l : List Char) : lastWs (trimEnd l) = false := by
  induction l with
  | nil => simp [trimEnd, lastWs]
  | cons c cs ih =>
    by_cases hcond : (trimEnd cs).isEmpty && isWsChar c
    · simp [trimEnd, hcond, lastWs]
    · have heq : trimEnd (c :: cs) = c :: trimEnd cs := by simp [trimEnd, hcond]
      rw [heq]
      cases hx : trimEnd cs with
      | nil =>
        have hws : isWsChar c = false := by
          rw [hx] at hcond
          simpa using hcond
        simp [lastWs, hws]
      | cons x xs =>
        rw [hx] at ih
        simpa [lastWs, List.getLast?_cons_cons] using ih

theorem trimEnd_cons_eq (c : Char) (cs : List Char) :
    trimEnd (c :: cs) =
      if (trimEnd cs).isEmpty && isWsChar c then [] else c :: trimEnd cs := rfl

theorem trimEnd_fix (l : List Char) (h : lastWs l = false) : trimEnd l = l := by
  induction l with
  | nil => rfl
  | cons c cs ih =>
    cases cs with
    | nil =>
      have hws : isWsChar c = false := by simpa [lastWs] using h
      simp [trimEnd, hws]
    | cons d ds =>
      have htl : trimEnd (d :: ds) = d :: ds := by
        apply ih
        simpa [lastWs, List.getLast?_cons_cons] using h
      rw [trimEnd_cons_eq, htl]
      simp

theorem headWs_trimEnd (l : List Char) (h : headWs l = false) :
    headWs (trimEnd l) = false := by
  cases l with
  | nil => simp [trimEnd, headWs]
  | cons c cs =>
    rcases trimEnd_cons c cs with heq | heq
    · simp [heq, headWs]
    · rw [heq]
      simpa [headWs] using h

theorem headWs_dropWhile (l : List Char) :
    headWs (l.dropWhile isWsChar) = false := by
  induction l with
  | nil => simp [headWs]
  | cons c cs ih =>
    by_cases hws : isWsChar c
    · simpa [List.dropWhile, hws] using ih
    · simpa [List.dropWhile, hws, headWs] using hws

theorem mem_dropWhile (l : List Char) (c : Char)
    (h : c ∈ l.dropWhile isWsChar) : c ∈ l := by
  induction l with
  | nil => simpa using h
  | cons d ds ih =>
    by_cases hws : isWsChar d
    · rw [List.dropWhile_cons_of_pos (by simpa using hws)] at h
      exact List.mem_cons_of_mem d (ih h)
    · rwa [List.dropWhile_cons_of_neg (by simpa using hws)] at h

theorem noTwoWs_dropWhile (l : List Char) (h : noTwoWs l = true) :
    noTwoWs (l.dropWhile isWsChar) = true := by
  induction l with
  | nil => simpa using h
  | cons d ds ih =>
    by_cases hws : isWsChar d
    · rw [List.dropWhile_cons_of_pos (by simpa using hws)]
      exact ih (noTwoWs_tail d ds h)
    · rwa [List.dropWhile_cons_of_neg (by simpa using hws)]

theorem dropWhile_fix (l : List Char) (h : headWs l = false) :
    l.dropWhile isWsChar = l := by
  cases l with
  | nil => rfl
  | cons c cs =>
    have hws : isWsChar c = false := by simpa [headWs] using h
    simp [List.dropWhile, hws]

theorem mem_jsTrimList (l : List Char) (c : Char) (h : c ∈ jsTrimList l) :
    c ∈ l :=
  mem_dropWhile l c (mem_trimEnd _ c h)

theorem headWs_jsTrimList (l : List Char) : headWs (jsTrimList l) = false :=
  headWs_trimEnd _ (headWs_dropWhile l)

theorem lastWs_jsTrimList (l : List Char) : lastWs (jsTrimList l) = false :=
  lastWs_trimEnd _

theorem noTwoWs_jsTrimList (l : List Char) (h : noTwoWs l = true) :
    noTwoWs (jsTrimList l) = true :=
  noTwoWs_trimEnd _ (noTwoWs_dropWhile l h)

theorem jsTrimList_fix (l : List Char) (h1 : headWs l = false)
    (h2 : lastWs l = false) : jsTrimList l = l := by
  unfold jsTrimList
  rw [dropWhile_fix l h1]
  exact trimEnd_fix l h2

theorem normChars_good (l : List Char) (c : Char) (h : c ∈ normChars l) :
    goodChar c = true := by
  have hmem : c ∈ collapseWs ((l.map Char.toLower).filter keepChar) :=
    mem_jsTrimList _ c h
  rcases mem_collapseAux _ false c hmem with rfl | ⟨hmem', hnws⟩
  · simp [goodChar]
  · have hkeep : keepChar c = true := List.of_mem_filter hmem'
    simp only [keepChar, Bool.or_eq_true] at hkeep
    rcases hkeep with hld | hws
    · simp [goodChar, hld]
    · rw [hws] at hnws
      cases hnws

theorem normChars_noTwoWs (l : List Char) : noTwoWs (normChars l) = true :=
  noTwoWs_jsTrimList _ (noTwoWs_collapseAux _ false)

theorem normChars_headWs (l : List Char) : headWs (normChars l) = false :=
  headWs_jsTrimList _

theorem normChars_lastWs (l : List Char) : lastWs (normChars l) = false :=
  lastWs_jsTrimList _

theorem map_toLower_fix (r : List Char) (h : ∀ c ∈ r, goodChar c = true) :
    r.map Char.toLower = r := by
  induction r with
  | nil => rfl
  | cons c cs ih =>
    simp only [List.map_cons]
    rw [good_toLower_fix c (h c (List.mem_cons_self c cs)),
      ih (fun x hx => h x (List.mem_cons_of_mem c hx))]

theorem filter_keep_fix (r : List Char) (h : ∀ c ∈ r, goodChar c = true) :
    r.filter keepChar = r :=
  List.filter_eq_self.mpr (fun c hc => good_keep c (h c hc))

theorem normChars_idem (l : List Char) : normChars (normChars l) = normChars l := by
  have hgood := normChars_good l
  conv_lhs => rw [normChars]
  rw [map_toLower_fix _ hgood, filter_keep_fix _ hgood]
  rw [show collapseWs (normChars l) = collapseAux false (normChars l) from rfl]
  rw [collapseAux_fix _ hgood (normChars_noTwoWs l) false (by simp)]
  exact jsTrimList_fix _ (normChars_headWs l) (normChars_lastWs l)

theorem strContains_self (n : String) : strContains n n = true := by
  unfold strContains
  exact subOcc_of_hasPre _ _ (by simpa using hasPre_self_append n.data [])

theorem strContains_of_startsWith (s p : String) (h : strStartsWith s p = true) :
    strContains s p = true :=
  subOcc_of_hasPre _ _ h

theorem strContains_sentinel_tail (a b : String) :
    strContains ((a ++ redPhaseSentinel) ++ b) redPhaseSentinel = true :=
  strContains_append_left _ _ _ (strContains_append_right _ _ _ (strContains_self _))

/-- C9: the name normalizer is idempotent: normalizing an already
normalized scenario string changes nothing, for every input string. -/
theorem normalizeTestName_idempotent (s : String) :
    normalizeTestName (normalizeTestName s) = normalizeTestName s := by
  show String.mk (normChars (normChars s.data)) = String.mk (normChars s.data)
  exact congrArg String.mk (normChars_idem s.data)

/-- C7: `validateRequirements` produces no warnings, is valid exactly when
the user story is not whitespace-only and some scenario list is non-empty,
reports the dedicated error message for each missing part, and has an empty
error list whenever it reports valid. -/
theorem validateRequirements_characterization (r : TestRequirements) :
    (validateRequirements r).warnings = [] ∧
    ((validateRequirements r).valid = true ↔
      (jsTrim r.userStory ≠ "" ∧ hasAnyScenario r = true)) ∧
    (hasAnyScenario r = false →
      "At least one test scenario is required (acceptance criteria, happy path, edge case, or error case)" ∈
        (validateRequirements r).errors) ∧
    (jsTrim r.userStory = "" →
      "User story is required" ∈ (validateRequirements r).errors) ∧
    ((validateRequirements r).valid = true → (validateRequirements r).errors = []) := by
  by_cases h1 : hasAnyScenario r <;> by_cases h2 : jsTrim r.userStory = "" <;>
    simp [validateRequirements, h1, h2]

/-- Witness for C7: a concrete model with no scenarios is flagged with the
scenario message, and a whitespace-only story is flagged with the story
message. -/
theorem validateRequirements_characterization_witness :
    "At least one test scenario is required (acceptance criteria, happy path, edge case, or error case)" ∈
      (validateRequirements { userStory := "As a user, I want to log in" }).errors ∧
    "User story is required" ∈
      (validateRequirements { userStory := "   ", happyPath := ["Enter valid credentials"] }).errors :=
  ⟨(validateRequirements_characterization _).2.2.1 (by decide),
   (validateRequirements_characterization _).2.2.2.1 (by decide)⟩

/-- C2: the remote generator degrades every failure to absence and never
surfaces an exception (the embedded function is total and returns an
`Option`): with no credential resolvable from the explicit parameter or the
two environment variables it returns `none` without attempting any network
call (zero calls), and whenever the network layer throws it still returns
`none`. -/
theorem generateTestWithAI_failure_absent (net : String → String → Except String String)
    (context : AITestContext) (config : AITestGeneratorConfig) (env : AIEnv) :
    ((config.apiKey = none ∧ env.openaiKey = none ∧ env.githubToken = none) →
      generateTestWithAI net context config env = (none, 0)) ∧
    (jsTruthy (resolveApiKey config env) = false →
      generateTestWithAI net context config env = (none, 0)) ∧
    (∀ e, net (buildPrompt context) ((resolveApiKey config env).getD "") = Except.error e →
      (generateTestWithAI net context config env).1 = none) := by
  refine ⟨?_, ?_, ?_⟩
  · rintro ⟨h1, h2, h3⟩
    simp [generateTestWithAI, resolveApiKey, jsOr, jsTruthy, h1, h2, h3]
  · intro h
    simp [generateTestWithAI, h]
  · intro e he
    by_cases h : jsTruthy (resolveApiKey config env)
    · simp [generateTestWithAI, h, he]
    · simp [generateTestWithAI, h]

/-- Witness for C2: with no credential anywhere, a network layer that
would always fail is never consulted and the result is absent. -/
theorem generateTestWithAI_failure_absent_witness :
    generateTestWithAI (fun _ _ => Except.error "network down")
      { componentName := "Foo", scenario := "submit the form", type := .happy }
      {} {} = (none, 0) :=
  (generateTestWithAI_failure_absent (fun _ _ => Except.error "network down")
    { componentName := "Foo", scenario := "submit the form", type := .happy }
    {} {}).1 ⟨rfl, rfl, rfl⟩

/-- C3: fallback monotonicity of the case orchestrator: when the remote
generator returns absent for the context the orchestrator builds, the test
case generated with `aiGenerate := true` is byte-identical to the one
generated with `aiGenerate := false` and the same remaining options. -/
theorem generateTestCase_fallback_monotone (remote : AITestContext → Option String)
    (scenario componentName : String) (type : TestCaseType) (c : TestSectionContext)
    (h : remote { componentName := componentName, scenario := scenario,
                  type := type.toScaffold, props := c.props, events := c.events,
                  userStory := c.userStory,
                  acceptanceCriteria := c.acceptanceCriteria } = none) :
    generateTestCase remote scenario componentName type { c with aiGenerate := true } =
      generateTestCase remote scenario componentName type { c with aiGenerate := false } := by
  simp [generateTestCase, h]

/-- Witness for C3: a remote generator that always returns absent yields
the same declaration as local generation at a concrete input. -/
theorem generateTestCase_fallback_monotone_witness :
    generateTestCase (fun _ => none) "Enter valid credentials" "LoginForm" .happy
        { props := "email: string", aiGenerate := true } =
      generateTestCase (fun _ => none) "Enter valid credentials" "LoginForm" .happy
        { props := "email: string", aiGenerate := false } :=
  generateTestCase_fallback_monotone (fun _ => none) "Enter valid credentials"
    "LoginForm" .happy { props := "email: string" } rfl

/-- C8 analysis: whenever remote generation is disabled (and so also when
its result is absent, by the fallback-monotonicity theorem's reduction),
the case orchestrator's fallback is always the plain enhanced scaffold:
`TestGenerationOptions` carries no `assistantMode`/`copilotReady` field,
`generateTestCase` never consults one, and the Copilot scaffold generator
is never invoked — at a concrete input the produced declaration differs
from the Copilot scaffold the repository's documentation promises for the
copilot-ready mode. -/
theorem generateTestCase_fallback_always_enhanced (remote : AITestContext → Option String)
    (scenario componentName : String) (type : TestCaseType) (c : TestSectionContext)
    (h : c.aiGenerate = false) :
    generateTestCase remote scenario componentName type c =
      generateEnhancedScaffold
        { componentName := componentName, scenario := scenario,
          type := type.toScaffold,
          description :=
            if type == .edge || type == .error then
              "handle " ++ normalizeTestName scenario
            else normalizeTestName scenario,
          props := c.props, events := c.events } ∧
    generateTestCase (fun _ => none) "submit the form" "Foo" .happy {} ≠
      generateCopilotScaffold
        { componentName := "Foo", scenario := "submit the form", type := .happy,
          description := normalizeTestName "submit the form" } := by
  constructor
  · cases type <;> simp [generateTestCase, h]
  · decide

/-- Witness for the C8 analysis at a concrete input. -/
theorem generateTestCase_fallback_always_enhanced_witness :
    generateTestCase (fun _ => none) "submit the form" "Foo" .happy {} =
      generateEnhancedScaffold
        { componentName := "Foo", scenario := "submit the form", type := .happy,
          description := normalizeTestName "submit the form" } :=
  by simpa using
    (generateTestCase_fallback_always_enhanced (fun _ => none) "submit the form"
      "Foo" .happy {} rfl).1

/-- C4: section ordering invariant: for every input the titles of the
sections the assembler builds are exactly the canonical fixed order
acceptance → happy → edge → error → accessibility filtered to the enabled
sections — an empty scenario list drops its section, the accessibility
section is always present, and the order never changes. -/
theorem buildSections_ordered (remote : AITestContext → Option String)
    (componentName : String) (r : TestRequirements) (context : TestSectionContext) :
    (buildSections remote componentName r context).map Prod.fst =
      canonicalSectionOrder.filter (sectionPresent r) := by
  by_cases h1 : r.acceptanceCriteria.isEmpty <;>
    by_cases h2 : r.happyPath.isEmpty <;>
      by_cases h3 : r.edgeCases.isEmpty <;>
        by_cases h4 : r.errorCases.isEmpty <;>
          simp [buildSections, canonicalSectionOrder, sectionPresent, h1, h2, h3, h4]

theorem hasPre_append_same (n p l : List Char) (h : hasPre p l = true) :
    hasPre (n ++ p) (n ++ l) = true := by
  induction n with
  | nil => simpa using h
  | cons a as' ih => simpa [hasPre] using ih

theorem strStartsWith_append_same (n p l : String) (h : strStartsWith l p = true) :
    strStartsWith (n ++ l) (n ++ p) = true := by
  unfold strStartsWith at *
  rw [String.data_append, String.data_append]
  exact hasPre_append_same _ _ _ h

theorem accessibilityCase_startsWith (remote : AITestContext → Option String)
    (componentName : String) (context : TestSectionContext) (p : String × String) :
    strStartsWith (accessibilityCase remote componentName context p)
      ("    it('should " ++ p.1 ++ "'") = true := by
  rcases h : (if context.aiGenerate then
      remote { componentName := componentName, scenario := p.2, type := .accessibility,
               props := context.props, events := context.events,
               userStory := context.userStory,
               acceptanceCriteria := context.acceptanceCriteria } else none) with _ | code
  · simp only [accessibilityCase, h]
    apply strStartsWith_append_of
    apply strStartsWith_append_of
    apply strStartsWith_append_of
    apply strStartsWith_append_of
    apply strStartsWith_append_of
    apply strStartsWith_append_of
    exact strStartsWith_append_same ("    it('should " ++ p.1) "'"
      "', async () => \x7b\n    // " (by decide)
  · simp only [accessibilityCase, h]
    apply strStartsWith_append_of
    apply strStartsWith_append_of
    exact strStartsWith_append_same ("    it('should " ++ p.1) "'"
      "', async () => \x7b\n" (by decide)

/-- C5: the accessibility section is mandatory and unique: among the
sections the assembler builds, exactly one is titled "Accessibility", and
it always holds exactly two test-case declarations, one for each of the two
fixed scenarios ("be accessible to screen readers" and "be keyboard
navigable"), for every input and option combination. -/
theorem accessibility_section_mandatory (remote : AITestContext → Option String)
    (componentName : String) (r : TestRequirements) (context : TestSectionContext) :
    (buildSections remote componentName r context).filter
        (fun s => s.1 == "Accessibility") =
      [("Accessibility", accessibilityCases remote componentName context)] ∧
    (accessibilityCases remote componentName context).length = 2 ∧
    (∃ a b, accessibilityCases remote componentName context = [a, b] ∧
      strStartsWith a "    it('should be accessible to screen readers'" = true ∧
      strStartsWith b "    it('should be keyboard navigable'" = true) := by
  refine ⟨?_, rfl, ?_⟩
  · by_cases h1 : r.acceptanceCriteria.isEmpty <;>
      by_cases h2 : r.happyPath.isEmpty <;>
        by_cases h3 : r.edgeCases.isEmpty <;>
          by_cases h4 : r.errorCases.isEmpty <;>
            simp [buildSections, h1, h2, h3, h4]
  · refine ⟨_, _, rfl, ?_, ?_⟩
    · exact accessibilityCase_startsWith remote componentName context
        ("be accessible to screen readers",
         "Component should have proper ARIA labels and semantic HTML")
    · exact accessibilityCase_startsWith remote componentName context
        ("be keyboard navigable",
         "User should be able to navigate and interact using keyboard only")

theorem accessibilityScaffold_contains_sentinel (n s d : String) :
    strContains (generateAccessibilityScaffold n s d) redPhaseSentinel = true := by
  unfold generateAccessibilityScaffold
  by_cases hk : (strContains d "keyboard" || strContains s "keyboard") = true
  · rw [if_pos hk]
    exact strContains_sentinel_tail _ _
  · rw [if_neg hk]
    by_cases hsr : (strContains d "screen reader" || strContains s "screen reader" ||
        strContains s "ARIA") = true
    · rw [if_pos hsr]
      exact strContains_sentinel_tail _ _
    · rw [if_neg hsr]
      exact strContains_sentinel_tail _ _

theorem copilotAccessibilityScaffold_contains_sentinel (n s d h : String) :
    strContains (generateCopilotAccessibilityScaffold n s d h) redPhaseSentinel = true := by
  unfold generateCopilotAccessibilityScaffold
  by_cases hk : (strContains d "keyboard" || strContains s "keyboard") = true
  · rw [if_pos hk]
    exact strContains_sentinel_tail _ _
  · rw [if_neg hk]
    by_cases hsr : (strContains d "screen reader" || strContains s "screen reader" ||
        strContains s "ARIA") = true
    · rw [if_pos hsr]
      exact strContains_sentinel_tail _ _
    · rw [if_neg hsr]
      exact strContains_sentinel_tail _ _

theorem enhanced_contains_sentinel (context : EnhancedScaffoldContext) :
    strContains (generateEnhancedScaffold context) redPhaseSentinel = true := by
  obtain ⟨n, s, t, d, p, e⟩ := context
  simp only [generateEnhancedScaffold]
  apply strContains_append_left
  apply strContains_append_right
  cases t with
  | acceptance => exact strContains_sentinel_tail _ _
  | happy => exact strContains_sentinel_tail _ _
  | edge => exact strContains_sentinel_tail _ _
  | error => exact strContains_sentinel_tail _ _
  | accessibility =>
    show strContains (generateAccessibilityScaffold n s d) redPhaseSentinel = true
    exact accessibilityScaffold_contains_sentinel n s d

theorem copilot_contains_sentinel (context : CopilotScaffoldContext) :
    strContains (generateCopilotScaffold context) redPhaseSentinel = true := by
  obtain ⟨n, s, t, d, p, e, u, a⟩ := context
  simp only [generateCopilotScaffold]
  apply strContains_append_left
  apply strContains_append_right
  cases t with
  | acceptance => exact strContains_sentinel_tail _ _
  | happy => exact strContains_sentinel_tail _ _
  | edge => exact strContains_sentinel_tail _ _
  | error => exact strContains_sentinel_tail _ _
  | accessibility =>
    show strContains
      (generateCopilotAccessibilityScaffold n s d
        (copilotContextHeader
          { componentName := n, scenario := s, type := .accessibility,
            description := d, props := p, events := e, userStory := u,
            acceptanceCriteria := a })) redPhaseSentinel = true
    exact copilotAccessibilityScaffold_contains_sentinel n s d _

/-- C6 (amended): every test-case body produced by the local scaffold
generators — the enhanced scaffold and the Copilot scaffold, in every
category variant — contains the fixed failing-assertion sentinel
`expect(true).toBe(false)`; the content validator's red-phase check passes
(emits no red-phase warning) iff the text contains that sentinel at least
once or contains the literal comment text `// Red phase`. -/
theorem redPhase_sentinel_characterization :
    (∀ context : EnhancedScaffoldContext,
      strContains (generateEnhancedScaffold context) redPhaseSentinel = true) ∧
    (∀ context : CopilotScaffoldContext,
      strContains (generateCopilotScaffold context) redPhaseSentinel = true) ∧
    (∀ text : String,
      redPhaseCheckPasses text =
        (strContains text redPhaseSentinel || strContains text "// Red phase")) :=
  ⟨enhanced_contains_sentinel, copilot_contains_sentinel, fun _ => rfl⟩

/-- Counterexample to C6 as stated: the text `// Red phase` makes the
red-phase check pass although the sentinel `expect(true).toBe(false)` does
not occur in it, so "passes iff the sentinel is present" fails. -/
theorem redPhase_literal_counterexample :
    redPhaseCheckPasses "// Red phase" = true ∧
    strContains "// Red phase" redPhaseSentinel = false := by decide

theorem generateTestContent_contains_describe (remote : AITestContext → Option String)
    (componentName : String) (r : TestRequirements) (options : TestGenerationOptions) :
    strContains (generateTestContent remote componentName r options) "describe(" = true := by
  simp only [generateTestContent]
  apply strContains_append_left
  apply strContains_append_right
  apply strContains_of_startsWith
  apply strStartsWith_append_of
  apply strStartsWith_append_of
  apply strStartsWith_append_of
  apply strStartsWith_append_of
  decide

/-- C1 (amended): the file assembler `generateTestContent` performs no
validation and never rejects: for every requirements model — including
every invalid one — and every option set it returns assembled test text
containing a `describe(` declaration.  Requirements validation is the
separately exported `validateRequirements`, which callers invoke before
the assembler. -/
theorem generateTestContent_never_rejects (remote : AITestContext → Option String)
    (componentName : String) (r : TestRequirements) (options : TestGenerationOptions) :
    strContains (generateTestContent remote componentName r options) "describe(" = true :=
  generateTestContent_contains_describe remote componentName r options

/-- Counterexample to C1 as stated: the fully empty requirements model is
invalid (empty story and all four scenario lists empty), yet
`generateTestContent` does not reject it — it produces test text containing
a `describe(` declaration. -/
theorem generateTestContent_no_validation_counterexample :
    (validateRequirements {}).valid = false ∧
    strContains (generateTestContent (fun _ => none) "Foo" {} {}) "describe(" = true :=
  ⟨by decide, generateTestContent_contains_describe (fun _ => none) "Foo" {} {}⟩

theorem headWs_strAppend (a b : String) (h : a.data ≠ []) :
    headWs (a ++ b).data = headWs a.data := by
  rw [String.data_append]
  cases hd : a.data with
  | nil => exact absurd hd h
  | cons c cs => simp [headWs]

theorem strAppend_data_ne_nil (a b : String) (h : a.data ≠ []) :
    (a ++ b).data ≠ [] := by
  rw [String.data_append]
  cases hd : a.data with
  | nil => exact absurd hd h
  | cons c cs => simp

theorem strAppend_head (a b : String) (h : headWs a.data = false ∧ a.data ≠ []) :
    headWs (a ++ b).data = false ∧ (a ++ b).data ≠ [] :=
  ⟨by rw [headWs_strAppend a b h.2]; exact h.1, strAppend_data_ne_nil a b h.2⟩

theorem jsTrim_ne_empty (s : String) (h1 : headWs s.data = false)
    (h2 : s.data ≠ []) : (jsTrim s == "") = false := by
  unfold jsTrim jsTrimList
  rw [dropWhile_fix _ h1]
  cases hd : s.data with
  | nil => exact absurd hd h2
  | cons c cs =>
    have hc : isWsChar c = false := by
      rw [hd] at h1
      simpa [headWs] using h1
    rw [trimEnd_cons_eq, hc]
    simp only [Bool.and_false, if_false]
    rw [beq_eq_false_iff_ne]
    intro heq
    have := congrArg String.data heq
    simp at this

theorem importsBlock_contains_token (componentName : String) :
    strContains (importsBlock componentName) "describe" = true ∧
    strContains (importsBlock componentName) "it" = true ∧
    strContains (importsBlock componentName) "expect" = true ∧
    strContains (importsBlock componentName) "render" = true ∧
    strContains (importsBlock componentName) componentName = true ∧
    strContains (importsBlock componentName) (importLine componentName) = true := by
  refine ⟨?_, ?_, ?_, ?_, ?_, ?_⟩
  · apply strContains_append_left
    apply strContains_append_left
    apply strContains_append_left
    decide
  · apply strContains_append_left
    apply strContains_append_left
    apply strContains_append_left
    decide
  · apply strContains_append_left
    apply strContains_append_left
    apply strContains_append_left
    decide
  · apply strContains_append_left
    apply strContains_append_left
    apply strContains_append_right
    decide
  · apply strContains_append_right
    show strContains (importLine componentName) componentName = true
    apply strContains_append_left
    apply strContains_append_right
    exact strContains_self componentName
  · apply strContains_append_right
    exact strContains_self (importLine componentName)

theorem generateTestContent_contains_of_imports
    (remote : AITestContext → Option String) (componentName : String)
    (r : TestRequirements) (options : TestGenerationOptions) (needle : String)
    (h : strContains (importsBlock componentName) needle = true) :
    strContains (generateTestContent remote componentName r options) needle = true := by
  simp only [generateTestContent]
  apply strContains_append_left
  apply strContains_append_left
  apply strContains_append_left
  apply strContains_append_right
  exact h

theorem generateTestContent_head (remote : AITestContext → Option String)
    (componentName : String) (r : TestRequirements) (options : TestGenerationOptions) :
    headWs (generateTestContent remote componentName r options).data = false ∧
    (generateTestContent remote componentName r options).data ≠ [] := by
  simp only [generateTestContent, headerCommentOf]
  exact strAppend_head _ _ (strAppend_head _ _ (strAppend_head _ _ (strAppend_head _ _
    (strAppend_head _ _ (strAppend_head _ _ (strAppend_head _ _ (strAppend_head _ _
    (strAppend_head _ _ (strAppend_head _ _ (strAppend_head _ _
      ⟨by decide, by decide⟩))))))))))

theorem accessibilityCase_contains_it (remote : AITestContext → Option String)
    (componentName : String) (context : TestSectionContext) (p : String × String) :
    strContains (accessibilityCase remote componentName context p) "it(" = true := by
  rcases h : (if context.aiGenerate then
      remote { componentName := componentName, scenario := p.2, type := .accessibility,
               props := context.props, events := context.events,
               userStory := context.userStory,
               acceptanceCriteria := context.acceptanceCriteria } else none) with _ | code
  · simp only [accessibilityCase, h]
    apply strContains_append_left
    apply strContains_append_left
    apply strContains_append_left
    apply strContains_append_left
    apply strContains_append_left
    apply strContains_append_left
    apply strContains_append_left
    apply strContains_append_left
    decide
  · simp only [accessibilityCase, h]
    apply strContains_append_left
    apply strContains_append_left
    apply strContains_append_left
    apply strContains_append_left
    decide

theorem generateTestContent_contains_it_decl (remote : AITestContext → Option String)
    (componentName : String) (r : TestRequirements) (options : TestGenerationOptions) :
    strContains (generateTestContent remote componentName r options) "it(" = true := by
  simp only [generateTestContent]
  apply strContains_append_left
  apply strContains_append_right
  apply strContains_append_left
  apply strContains_append_right
  refine strContains_joinNN _
    (renderSection ("Accessibility",
      accessibilityCases remote componentName
        { props := r.props, events := r.events, userStory := r.userStory,
          acceptanceCriteria := r.acceptanceCriteria,
          aiGenerate := options.aiGenerate })) _
    (List.mem_map_of_mem renderSection (by simp [buildSections])) ?_
  apply strContains_append_left
  apply strContains_append_right
  refine strContains_joinNN _
    (accessibilityCase remote componentName
      { props := r.props, events := r.events, userStory := r.userStory,
        acceptanceCriteria := r.acceptanceCriteria,
        aiGenerate := options.aiGenerate }
      ("be accessible to screen readers",
       "Component should have proper ARIA labels and semantic HTML")) _
    (List.mem_map_of_mem _ (by simp [accessibilityPairs])) ?_
  exact accessibilityCase_contains_it remote componentName _ _

/-- C10: generator/validator coherence: for every PascalCase component name
and every requirements model, the text produced by local generation
(`aiGenerate := false`) passes the content validator with an empty error
list and `valid = true`: the required tokens, a `describe(` group, an
`it(` case and the exact subject import path are always present. -/
theorem generated_content_passes_validator (remote : AITestContext → Option String)
    (componentName : String) (r : TestRequirements) (options : TestGenerationOptions)
    (hname : isValidComponentName componentName = true)
    (hai : options.aiGenerate = false) :
    validateTestContentErrors (generateTestContent remote componentName r options)
        componentName = [] ∧
    validTestContent (generateTestContent remote componentName r options)
        componentName = true := by
  have him := importsBlock_contains_token componentName
  have h1 := generateTestContent_contains_of_imports remote componentName r options _ him.1
  have h2 := generateTestContent_contains_of_imports remote componentName r options _ him.2.1
  have h3 := generateTestContent_contains_of_imports remote componentName r options _ him.2.2.1
  have h4 := generateTestContent_contains_of_imports remote componentName r options _ him.2.2.2.1
  have h5 := generateTestContent_contains_of_imports remote componentName r options _ him.2.2.2.2.1
  have h8 := generateTestContent_contains_of_imports remote componentName r options _ him.2.2.2.2.2
  have h6 := generateTestContent_contains_describe remote componentName r options
  have h7 := generateTestContent_contains_it_decl remote componentName r options
  have hh := generateTestContent_head remote componentName r options
  have h9 : (jsTrim (generateTestContent remote componentName r options) == "") = false :=
    jsTrim_ne_empty _ hh.1 hh.2
  have he : validateTestContentErrors (generateTestContent remote componentName r options)
      componentName = [] := by
    simp [validateTestContentErrors, requiredTokens, h9, h1, h2, h3, h4, h5, h6, h7, h8]
  exact ⟨he, by simp [validTestContent, he]⟩

/-- Witness for C10 at a concrete PascalCase name and the empty
requirements model. -/
theorem generated_content_passes_validator_witness :
    validateTestContentErrors (generateTestContent (fun _ => none) "LoginForm"
        { userStory := "As a user, I want to log in",
          happyPath := ["Enter valid credentials"] } {}) "LoginForm" = [] ∧
    validTestContent (generateTestContent (fun _ => none) "LoginForm"
        { userStory := "As a user, I want to log in",
          happyPath := ["Enter valid credentials"] } {}) "LoginForm" = true :=
  generated_content_passes_validator (fun _ => none) "LoginForm"
    { userStory := "As a user, I want to log in",
      happyPath := ["Enter valid credentials"] } {} (by decide) rfl
